import Mathlib

/-!
Verification development for a two-resource CRUD backend (users, todos)
backed by a relational store.  The definitions below are a shallow embedding
of the resource handlers in `src/controllers/user.controller.ts` and
`src/controllers/todo.controller.ts`, together with the SQL semantics of the
schema declared in `src/lib/database.ts` (tables `users` and `todos`, a
UNIQUE constraint on `users.email`, `completed BOOLEAN DEFAULT 0`,
timestamps defaulting to CURRENT_TIMESTAMP, and
`FOREIGN KEY (user_id) REFERENCES users(id) ON DELETE CASCADE`).

Timestamps are modelled as naturals; the ambient `CURRENT_TIMESTAMP` of a
request is passed in as an explicit `now` argument.  Each mutating operation
returns the HTTP-visible result (`Except ApiError α`, where errors carry
their status code) together with the post-state of the database.
-/

namespace TodoApi

/-- A row of the `users` table: `id INTEGER PRIMARY KEY AUTOINCREMENT`,
`name TEXT NOT NULL`, `email TEXT NOT NULL UNIQUE`,
`created_at DATETIME DEFAULT CURRENT_TIMESTAMP`. -/
structure User where
  id : Nat
  name : String
  email : String
  created_at : Nat
deriving DecidableEq

/-- A row of the `todos` table: `id INTEGER PRIMARY KEY AUTOINCREMENT`,
`user_id INTEGER NOT NULL`, `title TEXT NOT NULL`, `description TEXT`,
`completed BOOLEAN DEFAULT 0`, `created_at`/`updated_at DATETIME DEFAULT
CURRENT_TIMESTAMP`. -/
structure Todo where
  id : Nat
  user_id : Nat
  title : String
  description : Option String
  completed : Bool
  created_at : Nat
  updated_at : Nat
deriving DecidableEq

/-- `CreateUserRequest` from `src/models/user.ts`. -/
structure CreateUserRequest where
  name : String
  email : String
deriving DecidableEq

/-- `UpdateUserRequest` from `src/models/user.ts`: both fields optional. -/
structure UpdateUserRequest where
  name : Option String
  email : Option String
deriving DecidableEq

/-- `CreateTodoRequest` from `src/models/todo.ts`. -/
structure CreateTodoRequest where
  user_id : Nat
  title : String
  description : Option String
deriving DecidableEq

/-- `UpdateTodoRequest` from `src/models/todo.ts`: all fields optional,
and in particular no `user_id` field. -/
structure UpdateTodoRequest where
  title : Option String
  description : Option String
  completed : Option Bool
deriving DecidableEq

/-- Client-visible errors raised by the handlers, with their messages. -/
inductive ApiError where
  | notFound (msg : String)
  | badRequest (msg : String)
deriving DecidableEq

/-- HTTP status code attached to each error kind. -/
def ApiError.status : ApiError → Nat
  | .notFound _ => 404
  | .badRequest _ => 400

/-- The database: contents of the two tables plus the AUTOINCREMENT
counters (SQLite rowids start at 1). -/
structure DBState where
  users : List User
  todos : List Todo
  nextUserId : Nat
  nextTodoId : Nat
deriving DecidableEq

/-- A freshly created database (`CREATE TABLE IF NOT EXISTS ...`). -/
def DBState.empty : DBState := ⟨[], [], 1, 1⟩

/-- `SELECT * FROM users WHERE id = ?1` followed by `.get`. -/
def findUser (s : DBState) (id : Nat) : Option User :=
  s.users.find? (fun u => u.id == id)

/-- `SELECT * FROM todos WHERE id = ?1` followed by `.get`. -/
def findTodo (s : DBState) (id : Nat) : Option Todo :=
  s.todos.find? (fun t => t.id == id)

/-- `ORDER BY created_at DESC` on users. -/
def sortUsersDesc (l : List User) : List User :=
  l.mergeSort (fun a b => decide (b.created_at ≤ a.created_at))

/-- `ORDER BY created_at DESC` on todos. -/
def sortTodosDesc (l : List Todo) : List Todo :=
  l.mergeSort (fun a b => decide (b.created_at ≤ a.created_at))

/-- `UserController.listUsers`: `SELECT * FROM users ORDER BY created_at
DESC LIMIT ?1 OFFSET ?2`, with tsoa defaults `limit = 100`, `offset = 0`
applied when the query parameter is absent. -/
def listUsers (s : DBState) (limit offset : Option Nat) : List User :=
  ((sortUsersDesc s.users).drop (offset.getD 0)).take (limit.getD 100)

/-- `UserController.getUser`: 200 with the row, or 404. -/
def getUser (s : DBState) (id : Nat) : Except ApiError User :=
  match findUser s id with
  | some u => .ok u
  | none => .error (.notFound "User not found")

/-- `UserController.createUser`: `INSERT INTO users (name, email) VALUES
(?1, ?2)` then read-back.  A UNIQUE-constraint violation on `users.email`
is mapped to a 400 "Email already exists"; otherwise the new row gets the
next rowid and `created_at = CURRENT_TIMESTAMP`. -/
def createUser (s : DBState) (now : Nat) (body : CreateUserRequest) :
    Except ApiError User × DBState :=
  if s.users.any (fun u => u.email == body.email) then
    (.error (.badRequest "Email already exists"), s)
  else
    let u : User := ⟨s.nextUserId, body.name, body.email, now⟩
    (.ok u, { s with users := s.users ++ [u], nextUserId := s.nextUserId + 1 })

/-- Effect of the dynamically assembled `UPDATE users SET ...` statement on
the matched row: only the provided fields are written. -/
def applyUserUpdate (u : User) (body : UpdateUserRequest) : User :=
  { u with name := body.name.getD u.name, email := body.email.getD u.email }

/-- `UpdateUserRequest` with no recognized field provided. -/
def UpdateUserRequest.isEmpty (b : UpdateUserRequest) : Bool :=
  b.name.isNone && b.email.isNone

/-- `UserController.updateUser`: 404 if the id is absent; if no recognized
field is provided the existing row is returned with no write; a
UNIQUE-constraint violation on the new email (another row already holds it)
is mapped to 400; otherwise the provided fields are written. -/
def updateUser (s : DBState) (id : Nat) (body : UpdateUserRequest) :
    Except ApiError User × DBState :=
  match findUser s id with
  | none => (.error (.notFound "User not found"), s)
  | some u =>
    if body.isEmpty then
      (.ok u, s)
    else
      match body.email with
      | some e =>
        if s.users.any (fun v => v.email == e && v.id != id) then
          (.error (.badRequest "Email already exists"), s)
        else
          let u2 := applyUserUpdate u body
          (.ok u2, { s with users := s.users.map (fun x => if x.id == id then u2 else x) })
      | none =>
        let u2 := applyUserUpdate u body
        (.ok u2, { s with users := s.users.map (fun x => if x.id == id then u2 else x) })

/-- `UserController.deleteUser`: 404 if absent; otherwise `DELETE FROM
users WHERE id = ?1`, which by the schema rule `FOREIGN KEY (user_id)
REFERENCES users(id) ON DELETE CASCADE` also deletes every todo owned by
the user; success is 204 with no body. -/
def deleteUser (s : DBState) (id : Nat) : Except ApiError Unit × DBState :=
  match findUser s id with
  | none => (.error (.notFound "User not found"), s)
  | some _ =>
    (.ok (), { s with
      users := s.users.filter (fun u => u.id != id),
      todos := s.todos.filter (fun t => t.user_id != id) })

/-- The `WHERE` clause assembled by `TodoController.listTodos`: equality on
`user_id` and/or `completed` when the query parameter is supplied. -/
def matchesTodoFilter (t : Todo) (user_id : Option Nat) (completed : Option Bool) : Bool :=
  (match user_id with | some uid => t.user_id == uid | none => true) &&
  (match completed with | some c => t.completed == c | none => true)

/-- `TodoController.listTodos`: filter, then `ORDER BY created_at DESC
LIMIT ? OFFSET ?` with defaults `limit = 100`, `offset = 0`. -/
def listTodos (s : DBState) (user_id : Option Nat) (completed : Option Bool)
    (limit offset : Option Nat) : List Todo :=
  ((sortTodosDesc (s.todos.filter (fun t => matchesTodoFilter t user_id completed))).drop
      (offset.getD 0)).take (limit.getD 100)

/-- `TodoController.getTodo`: 200 with the row, or 404. -/
def getTodo (s : DBState) (id : Nat) : Except ApiError Todo :=
  match findTodo s id with
  | some t => .ok t
  | none => .error (.notFound "Todo not found")

/-- `TodoController.getUserTodos` (ListByUser): `SELECT * FROM todos WHERE
user_id = ?1 [AND completed = ?2] ORDER BY created_at DESC` — no pagination
and no existence check on the user. -/
def getUserTodos (s : DBState) (userId : Nat) (completed : Option Bool) : List Todo :=
  sortTodosDesc (s.todos.filter (fun t =>
    t.user_id == userId &&
      (match completed with | some c => t.completed == c | none => true)))

/-- The coercion `body.description || null` in `TodoController.createTodo`:
an absent or empty-string (falsy) description becomes NULL. -/
def coerceDescription (d : Option String) : Option String :=
  match d with
  | some str => if str == "" then none else some str
  | none => none

/-- `TodoController.createTodo`: 400 "User not found" when `user_id`
references no user; otherwise `INSERT INTO todos (user_id, title,
description) VALUES (?1, ?2, ?3)` — `completed` takes the schema default 0
and both timestamps default to CURRENT_TIMESTAMP — then read-back, 201. -/
def createTodo (s : DBState) (now : Nat) (body : CreateTodoRequest) :
    Except ApiError Todo × DBState :=
  match findUser s body.user_id with
  | none => (.error (.badRequest "User not found"), s)
  | some _ =>
    let t : Todo :=
      ⟨s.nextTodoId, body.user_id, body.title, coerceDescription body.description,
        false, now, now⟩
    (.ok t, { s with todos := s.todos ++ [t], nextTodoId := s.nextTodoId + 1 })

/-- `UpdateTodoRequest` with no recognized field provided. -/
def UpdateTodoRequest.isEmpty (b : UpdateTodoRequest) : Bool :=
  b.title.isNone && b.description.isNone && b.completed.isNone

/-- Effect of the dynamically assembled `UPDATE todos SET ...,
updated_at = CURRENT_TIMESTAMP` statement on the matched row. -/
def applyTodoUpdate (t : Todo) (body : UpdateTodoRequest) (now : Nat) : Todo :=
  { t with
    title := body.title.getD t.title,
    description := match body.description with
      | some d => some d
      | none => t.description,
    completed := body.completed.getD t.completed,
    updated_at := now }

/-- `TodoController.updateTodo`: 404 if absent; if no recognized field is
provided the existing row is returned with no write; otherwise exactly the
provided fields are written and `updated_at` is set to CURRENT_TIMESTAMP. -/
def updateTodo (s : DBState) (now : Nat) (id : Nat) (body : UpdateTodoRequest) :
    Except ApiError Todo × DBState :=
  match findTodo s id with
  | none => (.error (.notFound "Todo not found"), s)
  | some t =>
    if body.isEmpty then
      (.ok t, s)
    else
      let t2 := applyTodoUpdate t body now
      (.ok t2, { s with todos := s.todos.map (fun x => if x.id == id then t2 else x) })

/-- `TodoController.deleteTodo`: 404 if absent; otherwise the row is
deleted, 204 with no body. -/
def deleteTodo (s : DBState) (id : Nat) : Except ApiError Unit × DBState :=
  match findTodo s id with
  | none => (.error (.notFound "Todo not found"), s)
  | some _ => (.ok (), { s with todos := s.todos.filter (fun t => t.id != id) })

/-- A sequence of update requests against the todos table, each with its
own request time, applied in order. -/
def runTodoUpdates (s : DBState) (ops : List (Nat × Nat × UpdateTodoRequest)) : DBState :=
  ops.foldl (fun st op => (updateTodo st op.1 op.2.1 op.2.2).2) s

/-- Primary-key invariant of the `todos` table: rowids are pairwise
distinct. -/
def DBState.todoIdsNodup (s : DBState) : Prop :=
  (s.todos.map Todo.id).Nodup

/-- Primary-key invariant of the `users` table: rowids are pairwise
distinct. -/
def DBState.userIdsNodup (s : DBState) : Prop :=
  (s.users.map User.id).Nodup

/-- Referential integrity: every stored todo references a stored user. -/
def DBState.todosRefUsers (s : DBState) : Prop :=
  ∀ t ∈ s.todos, ∃ u ∈ s.users, u.id = t.user_id

/-- Concrete sample rows used by the witness theorems. -/
def annUser : User := ⟨1, "Ann", "ann@x.com", 10⟩

def bobUser : User := ⟨2, "Bob", "bob@x.com", 20⟩

def milkTodo : Todo := ⟨1, 1, "Buy milk", none, false, 15, 15⟩

/-- A concrete sample database used by the witness theorems. -/
def sampleDB : DBState := ⟨[annUser, bobUser], [milkTodo], 3, 2⟩

/-- ListByUser returns nothing when no stored todo is owned by `uid`. -/
theorem getUserTodos_eq_nil (s : DBState) (uid : Nat) (c : Option Bool)
    (h : ∀ t ∈ s.todos, t.user_id ≠ uid) : getUserTodos s uid c = [] := by
  unfold getUserTodos
  have h0 : (s.todos.filter fun t =>
      t.user_id == uid &&
        (match c with | some cc => t.completed == cc | none => true)) = [] := by
    rw [List.filter_eq_nil_iff]
    intro t ht hc
    rw [Bool.and_eq_true] at hc
    exact h t ht (by simpa using hc.1)
  rw [h0]
  simp [sortTodosDesc]

/-- Claim C1: for every User u present in the store, after Delete(u.id)
succeeds (204), no Todo with user_id = u.id remains, and ListByUser(u.id)
returns the empty sequence. -/
theorem C1_delete_user_cascades (s : DBState) (u : User)
    (hu : findUser s u.id = some u) :
    (deleteUser s u.id).1 = .ok () ∧
    (∀ t ∈ (deleteUser s u.id).2.todos, t.user_id ≠ u.id) ∧
    getUserTodos (deleteUser s u.id).2 u.id none = [] := by
  have hd : deleteUser s u.id =
      (.ok (), { s with
        users := s.users.filter (fun v => v.id != u.id),
        todos := s.todos.filter (fun t => t.user_id != u.id) }) := by
    unfold deleteUser
    rw [hu]
  have hmem : ∀ t ∈ (deleteUser s u.id).2.todos, t.user_id ≠ u.id := by
    rw [hd]
    intro t ht
    have h2 := (List.mem_filter.mp ht).2
    simpa using h2
  refine ⟨by rw [hd], hmem, ?_⟩
  exact getUserTodos_eq_nil _ _ _ hmem

/-- Witness for C1 at the sample database. -/
theorem C1_witness :
    (deleteUser sampleDB annUser.id).1 = .ok () ∧
    (∀ t ∈ (deleteUser sampleDB annUser.id).2.todos, t.user_id ≠ annUser.id) ∧
    getUserTodos (deleteUser sampleDB annUser.id).2 annUser.id none = [] :=
  C1_delete_user_cascades sampleDB annUser (by rfl)

/-- Claim C2: if a User with email e already exists, then for any name n,
Create(n, e) fails with Conflict (HTTP 400, duplicate email), and the
previously created User with email e is still returned by Get(its id) with
all its fields unchanged. -/
theorem C2_duplicate_email_conflict (s : DBState) (uid : Nat) (u : User)
    (now : Nat) (n e : String) (hu : getUser s uid = .ok u) (he : u.email = e) :
    (createUser s now ⟨n, e⟩).1 = .error (.badRequest "Email already exists") ∧
    (ApiError.badRequest "Email already exists").status = 400 ∧
    getUser (createUser s now ⟨n, e⟩).2 uid = .ok u := by
  have hfind : findUser s uid = some u := by
    unfold getUser at hu
    cases hf : findUser s uid with
    | none => rw [hf] at hu; exact absurd hu (by simp)
    | some v =>
      rw [hf] at hu
      simp only [Except.ok.injEq] at hu
      rw [hu]
  have humem : u ∈ s.users := List.mem_of_find?_eq_some hfind
  have hany : s.users.any (fun v => v.email == (⟨n, e⟩ : CreateUserRequest).email) = true :=
    List.any_eq_true.mpr ⟨u, humem, by simp [he]⟩
  have hc : createUser s now ⟨n, e⟩ =
      (.error (.badRequest "Email already exists"), s) := by
    unfold createUser
    rw [if_pos hany]
  rw [hc]
  exact ⟨rfl, rfl, hu⟩

/-- Witness for C2 at the sample database. -/
theorem C2_witness :
    (createUser sampleDB 30 ⟨"Another Ann", "ann@x.com"⟩).1 =
      .error (.badRequest "Email already exists") ∧
    (ApiError.badRequest "Email already exists").status = 400 ∧
    getUser (createUser sampleDB 30 ⟨"Another Ann", "ann@x.com"⟩).2 1 = .ok annUser :=
  C2_duplicate_email_conflict sampleDB 1 annUser 30 "Another Ann" "ann@x.com"
    (by rfl) (by rfl)

/-- Claim C10: Todo Create coerces a provided empty-string description to
null — for every request with description = "" (or an absent description),
the created Todo is stored and returned with no description, whereas a
non-empty description is stored verbatim. -/
theorem C10_empty_description_coerced (s : DBState) (now : Nat)
    (body : CreateTodoRequest) (t : Todo)
    (h : (createTodo s now body).1 = .ok t) :
    t ∈ (createTodo s now body).2.todos ∧
    (body.description = some "" → t.description = none) ∧
    (body.description = none → t.description = none) ∧
    (∀ d, body.description = some d → d ≠ "" → t.description = some d) := by
  cases hf : findUser s body.user_id with
  | none =>
    unfold createTodo at h
    rw [hf] at h
    exact absurd h (by simp)
  | some u =>
    simp only [createTodo, hf, Except.ok.injEq] at h
    subst h
    refine ⟨?_, ?_, ?_, ?_⟩
    · simp [createTodo, hf]
    · intro hd
      simp [coerceDescription, hd]
    · intro hd
      simp [coerceDescription, hd]
    · intro d hd hne
      simp [coerceDescription, hd, hne]

/-- Witness for C10 at the sample database: an empty-string description is
stored as NULL. -/
theorem C10_witness :
    ((createTodo sampleDB 40 ⟨1, "Walk", some ""⟩).1 =
      .ok (⟨2, 1, "Walk", none, false, 40, 40⟩ : Todo)) ∧
    ((⟨2, 1, "Walk", none, false, 40, 40⟩ : Todo) ∈
      (createTodo sampleDB 40 ⟨1, "Walk", some ""⟩).2.todos ∧
    ((⟨2, 1, "Walk", none, false, 40, 40⟩ : Todo)).description = none) := by
  have h : (createTodo sampleDB 40 ⟨1, "Walk", some ""⟩).1 =
      .ok (⟨2, 1, "Walk", none, false, 40, 40⟩ : Todo) := by rfl
  have h2 := C10_empty_description_coerced sampleDB 40 ⟨1, "Walk", some ""⟩
    (⟨2, 1, "Walk", none, false, 40, 40⟩ : Todo) h
  exact ⟨h, h2.1, h2.2.1 rfl⟩

/-- Claim C7 states that the create operations never persist an entity with
an empty name/title; it fails on the code: neither handler validates
non-emptiness, so creating a user with name = "" persists a user with empty
name, and creating a todo with title = "" persists a todo with empty title. -/
theorem C7_counterexample :
    (∃ u ∈ (createUser DBState.empty 5 ⟨"", "ann@x.com"⟩).2.users, u.name = "") ∧
    (∃ t ∈ (createTodo (createUser DBState.empty 5 ⟨"", "ann@x.com"⟩).2 6
        ⟨1, "", none⟩).2.todos, t.title = "") := by
  decide

/-- Claim C7, amended: the create operations persist the provided name and
title verbatim, with no non-emptiness validation — in particular an empty
name or title is accepted and stored. -/
theorem C7_amended_create_persists_verbatim (s : DBState) (now : Nat)
    (ub : CreateUserRequest) (tb : CreateTodoRequest) :
    (∀ u, (createUser s now ub).1 = .ok u →
      u.name = ub.name ∧ u ∈ (createUser s now ub).2.users) ∧
    (∀ t, (createTodo s now tb).1 = .ok t →
      t.title = tb.title ∧ t ∈ (createTodo s now tb).2.todos) := by
  constructor
  · intro u hu
    by_cases hc : s.users.any (fun v => v.email == ub.email) = true
    · simp only [createUser, if_pos hc] at hu
      exact absurd hu (by simp)
    · simp only [createUser, if_neg hc, Except.ok.injEq] at hu
      subst hu
      refine ⟨rfl, ?_⟩
      simp only [createUser, if_neg hc]
      exact List.mem_append_right _ (List.mem_singleton.mpr rfl)
  · intro t ht
    cases hf : findUser s tb.user_id with
    | none =>
      simp only [createTodo, hf] at ht
      exact absurd ht (by simp)
    | some v =>
      simp only [createTodo, hf, Except.ok.injEq] at ht
      subst ht
      exact ⟨rfl, by simp [createTodo, hf]⟩

/-- Witness for the amended C7: a user with empty name is created and
stored at the sample database. -/
theorem C7_witness :
    ((createUser sampleDB 50 ⟨"", "empty@x.com"⟩).1 =
      .ok (⟨3, "", "empty@x.com", 50⟩ : User)) ∧
    ((⟨3, "", "empty@x.com", 50⟩ : User).name = "" ∧
      (⟨3, "", "empty@x.com", 50⟩ : User) ∈
        (createUser sampleDB 50 ⟨"", "empty@x.com"⟩).2.users) := by
  have h : (createUser sampleDB 50 ⟨"", "empty@x.com"⟩).1 =
      .ok (⟨3, "", "empty@x.com", 50⟩ : User) := by rfl
  exact ⟨h, (C7_amended_create_persists_verbatim sampleDB 50 ⟨"", "empty@x.com"⟩
    ⟨1, "x", none⟩).1 _ h⟩

/-- Claim C3: Todo Create fails with ValidationError (HTTP 400, "user not
found") iff no User with id = user_id exists; on failure the todos table is
unchanged (no row persisted), and on success the returned Todo has
completed = false. -/
theorem C3_create_todo_user_check (s : DBState) (now : Nat) (body : CreateTodoRequest) :
    ((createTodo s now body).1 = .error (.badRequest "User not found") ↔
      ∀ u ∈ s.users, u.id ≠ body.user_id) ∧
    ((∀ u ∈ s.users, u.id ≠ body.user_id) → (createTodo s now body).2.todos = s.todos) ∧
    (∀ t, (createTodo s now body).1 = .ok t → t.completed = false) ∧
    (ApiError.badRequest "User not found").status = 400 := by
  have hiff : findUser s body.user_id = none ↔ ∀ u ∈ s.users, u.id ≠ body.user_id := by
    unfold findUser
    rw [List.find?_eq_none]
    constructor
    · intro h u hu heq
      exact h u hu (by simp [heq])
    · intro h u hu hbeq
      exact h u hu (by simpa using hbeq)
  cases hf : findUser s body.user_id with
  | none =>
    have hall := hiff.mp hf
    refine ⟨⟨fun _ => hall, fun _ => by simp [createTodo, hf]⟩,
      fun _ => by simp [createTodo, hf], fun t ht => ?_, rfl⟩
    simp only [createTodo, hf] at ht
    exact Except.noConfusion ht
  | some u =>
    have hnall : ¬ (∀ v ∈ s.users, v.id ≠ body.user_id) := by
      intro hall
      have hmem := List.mem_of_find?_eq_some hf
      have hbeq := List.find?_some hf
      exact hall u hmem (by simpa using hbeq)
    refine ⟨⟨fun herr => ?_, fun hall => absurd hall hnall⟩,
      fun hall => absurd hall hnall, fun t ht => ?_, rfl⟩
    · simp only [createTodo, hf] at herr
      exact Except.noConfusion herr
    · simp only [createTodo, hf, Except.ok.injEq] at ht
      subst ht
      rfl

/-- Witness for C3: at the sample database, creating a todo for the absent
user id 9 fails with the validation error and persists nothing. -/
theorem C3_witness :
    ((createTodo sampleDB 30 ⟨9, "X", none⟩).1 =
      .error (.badRequest "User not found")) ∧
    (createTodo sampleDB 30 ⟨9, "X", none⟩).2.todos = sampleDB.todos := by
  have h := C3_create_todo_user_check sampleDB 30 ⟨9, "X", none⟩
  have hall : ∀ u ∈ sampleDB.users,
      u.id ≠ (⟨9, "X", none⟩ : CreateTodoRequest).user_id := by decide
  exact ⟨h.1.mpr hall, h.2.1 hall⟩

/-- Claim C4: for every existing entity id, a partial Update in which no
recognized field is provided succeeds without error and returns the
currently stored entity with every field unchanged; no write is performed
(the state is unchanged, so in particular a Todo's updated_at is left
unmodified). -/
theorem C4_empty_update_noop (s : DBState) (now tid uid : Nat) (t : Todo) (u : User)
    (ht : findTodo s tid = some t) (hu : findUser s uid = some u) :
    updateTodo s now tid ⟨none, none, none⟩ = (.ok t, s) ∧
    updateUser s uid ⟨none, none⟩ = (.ok u, s) := by
  constructor
  · unfold updateTodo
    rw [ht]
    rfl
  · unfold updateUser
    rw [hu]
    rfl

/-- Witness for C4 at the sample database. -/
theorem C4_witness :
    updateTodo sampleDB 99 1 ⟨none, none, none⟩ = (.ok milkTodo, sampleDB) ∧
    updateUser sampleDB 2 ⟨none, none⟩ = (.ok bobUser, sampleDB) :=
  C4_empty_update_noop sampleDB 99 1 2 milkTodo bobUser (by rfl) (by rfl)

/-- Claim C5: for every existing Todo id, an Update providing at least one
of title, description, completed applies exactly the provided fields and
sets updated_at to the current time, so the returned Todo's updated_at is
greater than or equal to its prior updated_at (the prior timestamp not
being in the future), while fields not provided keep their previous
values. -/
theorem C5_update_applies_fields (s : DBState) (now id : Nat)
    (body : UpdateTodoRequest) (t : Todo)
    (ht : findTodo s id = some t) (hprior : t.updated_at ≤ now)
    (hne : body.isEmpty = false) :
    ∃ t2, (updateTodo s now id body).1 = .ok t2 ∧
      t2 ∈ (updateTodo s now id body).2.todos ∧
      t2.updated_at = now ∧ t.updated_at ≤ t2.updated_at ∧
      (∀ x, body.title = some x → t2.title = x) ∧
      (body.title = none → t2.title = t.title) ∧
      (∀ x, body.description = some x → t2.description = some x) ∧
      (body.description = none → t2.description = t.description) ∧
      (∀ x, body.completed = some x → t2.completed = x) ∧
      (body.completed = none → t2.completed = t.completed) ∧
      t2.id = t.id ∧ t2.user_id = t.user_id ∧ t2.created_at = t.created_at := by
  have hnet : ¬ (body.isEmpty = true) := by simp [hne]
  have hid : t.id = id := by
    simpa using List.find?_some
      (show List.find? (fun x => x.id == id) s.todos = some t from ht)
  have hmem : t ∈ s.todos := List.mem_of_find?_eq_some ht
  refine ⟨applyTodoUpdate t body now, ?_, ?_, rfl, hprior, ?_, ?_, ?_, ?_, ?_, ?_,
    rfl, rfl, rfl⟩
  · simp only [updateTodo, ht, if_neg hnet]
  · simp only [updateTodo, ht, if_neg hnet]
    exact List.mem_map.mpr ⟨t, hmem, by simp [hid]⟩
  · intro x hx
    simp [applyTodoUpdate, hx]
  · intro hx
    simp [applyTodoUpdate, hx]
  · intro x hx
    simp [applyTodoUpdate, hx]
  · intro hx
    simp [applyTodoUpdate, hx]
  · intro x hx
    simp [applyTodoUpdate, hx]
  · intro hx
    simp [applyTodoUpdate, hx]

/-- Witness for C5 at the sample database: marking the stored todo
completed refreshes updated_at to the request time 99. -/
theorem C5_witness :
    ∃ t2, (updateTodo sampleDB 99 1 ⟨none, none, some true⟩).1 = .ok t2 ∧
      t2 ∈ (updateTodo sampleDB 99 1 ⟨none, none, some true⟩).2.todos ∧
      t2.updated_at = 99 ∧ milkTodo.updated_at ≤ t2.updated_at ∧
      (∀ x, (⟨none, none, some true⟩ : UpdateTodoRequest).title = some x → t2.title = x) ∧
      ((⟨none, none, some true⟩ : UpdateTodoRequest).title = none → t2.title = milkTodo.title) ∧
      (∀ x, (⟨none, none, some true⟩ : UpdateTodoRequest).description = some x →
        t2.description = some x) ∧
      ((⟨none, none, some true⟩ : UpdateTodoRequest).description = none →
        t2.description = milkTodo.description) ∧
      (∀ x, (⟨none, none, some true⟩ : UpdateTodoRequest).completed = some x →
        t2.completed = x) ∧
      ((⟨none, none, some true⟩ : UpdateTodoRequest).completed = none →
        t2.completed = milkTodo.completed) ∧
      t2.id = milkTodo.id ∧ t2.user_id = milkTodo.user_id ∧
      t2.created_at = milkTodo.created_at :=
  C5_update_applies_fields sampleDB 99 1 ⟨none, none, some true⟩ milkTodo
    (by rfl) (by decide) (by rfl)

/-- One todo update never changes the multiset of rowids of the todos
table. -/
theorem updateTodo_id_map (s : DBState) (now id : Nat) (body : UpdateTodoRequest) :
    (updateTodo s now id body).2.todos.map Todo.id = s.todos.map Todo.id := by
  cases ht : findTodo s id with
  | none => simp [updateTodo, ht]
  | some t =>
    by_cases he : body.isEmpty = true
    · simp [updateTodo, ht, he]
    · have hid : t.id = id := by simpa using (List.find?_some ht)
      simp only [updateTodo, ht, if_neg he]
      rw [List.map_map]
      apply List.map_congr_left
      intro x hx
      by_cases hxi : (x.id == id) = true
      · have hxid : x.id = id := by simpa using hxi
        simp only [Function.comp_apply, if_pos hxi]
        show (applyTodoUpdate t body now).id = x.id
        simp [applyTodoUpdate, hid, hxid]
      · simp only [Function.comp_apply, if_neg hxi]

/-- One todo update preserves each stored todo's id and user_id (given the
primary-key invariant on todo ids). -/
theorem updateTodo_preserves_user_id (s : DBState) (now id : Nat)
    (body : UpdateTodoRequest) (hnd : s.todoIdsNodup) (t : Todo) (ht : t ∈ s.todos) :
    ∃ t2 ∈ (updateTodo s now id body).2.todos, t2.id = t.id ∧ t2.user_id = t.user_id := by
  cases hf : findTodo s id with
  | none => exact ⟨t, by simp [updateTodo, hf, ht], rfl, rfl⟩
  | some tf =>
    by_cases he : body.isEmpty = true
    · exact ⟨t, by simp [updateTodo, hf, he, ht], rfl, rfl⟩
    · have hfmem := List.mem_of_find?_eq_some hf
      have hfid : tf.id = id := by simpa using (List.find?_some hf)
      by_cases hti : t.id = id
      · have hteq : t = tf :=
          List.inj_on_of_nodup_map hnd ht hfmem (by rw [hti, hfid])
        refine ⟨applyTodoUpdate tf body now, ?_, ?_, ?_⟩
        · simp only [updateTodo, hf, if_neg he]
          exact List.mem_map.mpr ⟨tf, hfmem, by simp [hfid]⟩
        · rw [hteq]
          rfl
        · rw [hteq]
          rfl
      · refine ⟨t, ?_, rfl, rfl⟩
        simp only [updateTodo, hf, if_neg he]
        exact List.mem_map.mpr ⟨t, ht, by simp [hti]⟩

/-- Claim C8: a Todo's user_id is immutable after creation — for every
stored Todo and every sequence of partial Update operations, a todo with
the same id is still stored and its user_id is unchanged (no operation
changes ownership), given the primary-key invariant on todo ids. -/
theorem C8_user_id_immutable (s : DBState) (ops : List (Nat × Nat × UpdateTodoRequest))
    (hnd : s.todoIdsNodup) :
    ∀ t ∈ s.todos, ∃ t2 ∈ (runTodoUpdates s ops).todos,
      t2.id = t.id ∧ t2.user_id = t.user_id := by
  induction ops generalizing s with
  | nil => exact fun t ht => ⟨t, ht, rfl, rfl⟩
  | cons op rest ih =>
    intro t ht
    obtain ⟨t1, ht1, hid1, huid1⟩ :=
      updateTodo_preserves_user_id s op.1 op.2.1 op.2.2 hnd t ht
    have hnd1 : (updateTodo s op.1 op.2.1 op.2.2).2.todoIdsNodup := by
      unfold DBState.todoIdsNodup
      rw [updateTodo_id_map]
      exact hnd
    obtain ⟨t2, ht2, hid2, huid2⟩ :=
      ih (updateTodo s op.1 op.2.1 op.2.2).2 hnd1 t1 ht1
    exact ⟨t2, ht2, by rw [hid2, hid1], by rw [huid2, huid1]⟩

/-- Witness for C8 at the sample database: one update changing the title
and completion leaves the stored todo's user_id at its creation value. -/
theorem C8_witness :
    ∃ t2 ∈ (runTodoUpdates sampleDB [(99, 1, ⟨some "New", none, some true⟩)]).todos,
      t2.id = milkTodo.id ∧ t2.user_id = milkTodo.user_id :=
  C8_user_id_immutable sampleDB [(99, 1, ⟨some "New", none, some true⟩)]
    (by unfold DBState.todoIdsNodup; decide) milkTodo (by decide)

/-- Claim C9: ListByUser performs no existence check on userId — for a
userId that references no stored User it succeeds and returns the empty
sequence (given referential integrity of the store), and for any userId it
returns exactly the Todos owned by that user (no pagination), filtered by
the completed flag when supplied. -/
theorem C9_list_by_user (s : DBState) (userId : Nat) (completed : Option Bool)
    (href : s.todosRefUsers) :
    ((∀ u ∈ s.users, u.id ≠ userId) → getUserTodos s userId completed = []) ∧
    (∀ t, t ∈ getUserTodos s userId none ↔ t ∈ s.todos ∧ t.user_id = userId) ∧
    (∀ b t, t ∈ getUserTodos s userId (some b) ↔
      t ∈ s.todos ∧ t.user_id = userId ∧ t.completed = b) := by
  refine ⟨?_, ?_, ?_⟩
  · intro hno
    apply getUserTodos_eq_nil
    intro t ht heq
    obtain ⟨u, hu, huid⟩ := href t ht
    exact hno u hu (by rw [huid, heq])
  · intro t
    unfold getUserTodos sortTodosDesc
    rw [List.mem_mergeSort, List.mem_filter]
    simp
  · intro b t
    unfold getUserTodos sortTodosDesc
    rw [List.mem_mergeSort, List.mem_filter]
    simp

/-- Witness for C9 at the sample database: the unknown user id 9 yields the
empty sequence, and for user 1 membership is exactly ownership. -/
theorem C9_witness :
    getUserTodos sampleDB 9 none = [] ∧
    (milkTodo ∈ getUserTodos sampleDB 1 none ↔
      milkTodo ∈ sampleDB.todos ∧ milkTodo.user_id = 1) := by
  have h9 := C9_list_by_user sampleDB 9 none
    (by unfold DBState.todosRefUsers; decide)
  have h1 := C9_list_by_user sampleDB 1 none
    (by unfold DBState.todosRefUsers; decide)
  exact ⟨h9.1 (by decide), h1.2.1 milkTodo⟩

/-- Claim C6: List on Users returns the stored Users ordered by created_at
descending — the full ordering is a permutation of the stored users and is
sorted descending — containing at most limit elements (default 100) and
skipping the first offset elements of that ordering (default 0);
consequently List(limit=2, offset=0) and List(limit=2, offset=2) over an
unchanged store yield disjoint, order-consistent slices of the full
ordered set (their concatenation is its first four elements), given the
primary-key invariant on user ids. -/
theorem C6_list_users_pagination (s : DBState) (limit offset : Option Nat)
    (hnd : s.userIdsNodup) :
    (sortUsersDesc s.users).Perm s.users ∧
    (sortUsersDesc s.users).Pairwise (fun a b => b.created_at ≤ a.created_at) ∧
    listUsers s limit offset =
      ((sortUsersDesc s.users).drop (offset.getD 0)).take (limit.getD 100) ∧
    (listUsers s limit offset).length ≤ limit.getD 100 ∧
    listUsers s (some 2) (some 0) ++ listUsers s (some 2) (some 2) =
      (sortUsersDesc s.users).take 4 ∧
    List.Disjoint (listUsers s (some 2) (some 0)) (listUsers s (some 2) (some 2)) := by
  have hperm : (sortUsersDesc s.users).Perm s.users :=
    List.mergeSort_perm s.users _
  have htrans : ∀ (a b c : User), (decide (b.created_at ≤ a.created_at)) = true →
      (decide (c.created_at ≤ b.created_at)) = true →
      (decide (c.created_at ≤ a.created_at)) = true := by
    intro a b c hab hbc
    simp only [decide_eq_true_eq] at hab hbc ⊢
    omega
  have htotal : ∀ (a b : User),
      ((decide (b.created_at ≤ a.created_at)) ||
        (decide (a.created_at ≤ b.created_at))) = true := by
    intro a b
    simp only [Bool.or_eq_true, decide_eq_true_eq]
    omega
  have hpw : (sortUsersDesc s.users).Pairwise
      (fun a b => b.created_at ≤ a.created_at) := by
    have h := List.sorted_mergeSort htrans htotal s.users
    exact h.imp (fun hab => by simpa using hab)
  have hslice : ∀ (l : List User), l.take 2 ++ (l.drop 2).take 2 = l.take 4 := by
    intro l
    match l with
    | [] => rfl
    | [a] => rfl
    | [a, b] => rfl
    | [a, b, c] => rfl
    | a :: b :: c :: d :: rest => rfl
  have hnodup : (sortUsersDesc s.users).Nodup :=
    (List.Nodup.of_map User.id hnd).perm hperm.symm
  have hdisj : List.Disjoint ((sortUsersDesc s.users).take 2)
      ((sortUsersDesc s.users).drop 2) := by
    have hn := hnodup
    rw [← List.take_append_drop 2 (sortUsersDesc s.users)] at hn
    exact (List.nodup_append.mp hn).2.2
  refine ⟨hperm, hpw, rfl, ?_, hslice (sortUsersDesc s.users), ?_⟩
  · unfold listUsers
    rw [List.length_take]
    exact Nat.min_le_left _ _
  · exact List.disjoint_of_subset_right (List.take_sublist 2 _).subset hdisj

/-- Witness for C6 at the sample database. -/
theorem C6_witness :
    listUsers sampleDB (some 2) (some 0) ++ listUsers sampleDB (some 2) (some 2) =
      (sortUsersDesc sampleDB.users).take 4 ∧
    (listUsers sampleDB (some 2) (some 0)).length ≤ (some 2).getD 100 := by
  have h := C6_list_users_pagination sampleDB (some 2) (some 0)
    (by unfold DBState.userIdsNodup; decide)
  exact ⟨h.2.2.2.2.1, h.2.2.2.1⟩

end TodoApi
